import Mathlib

/-!
Shallow embedding of the SSD1306 OLED driver
(src/Core/Src/hardware/screen/SSD1306.c and numbersVerdana16.c).

The C float angle is modelled as an exact rational number; C casts from
float to unsigned integers are modelled as truncation toward zero followed
by reduction modulo the width of the target type.  GPIO lines (chip select
and data/command) are fields of the driver state; SPI traffic is recorded
as a trace of bus events.  The outcome of each HAL call (which may fail on
real hardware) is an explicit boolean input of the model.
-/

namespace SSD1306

/-- Severity levels of the external errorCodes facility. -/
inductive ErrLevel
  | success
  | warning
  | error
deriving DecidableEq, Repr

/-- Layered error code: severity plus a stack of (function code, site) tags.
The HAL sub-code carried by the layered constructor is external and not
modelled. -/
structure ErrorCode where
  level : ErrLevel
  stack : List (Nat × Nat)
deriving DecidableEq, Repr

/-- ERR_SUCCESS of the errorCodes facility. -/
def ERR_SUCCESS : ErrorCode := ⟨ErrLevel.success, []⟩

/-- createErrorCode from the errorCodes facility. -/
def createErrorCode (fc site : Nat) (lvl : ErrLevel) : ErrorCode := ⟨lvl, [(fc, site)]⟩

/-- createErrorCodeLayer1: same tagging, the HAL return value layer is dropped. -/
def createErrorCodeLayer1 (fc site : Nat) (lvl : ErrLevel) : ErrorCode := ⟨lvl, [(fc, site)]⟩

/-- pushErrorCode prepends a (function code, site) tag. -/
def pushErrorCode (e : ErrorCode) (fc site : Nat) : ErrorCode := ⟨e.level, (fc, site) :: e.stack⟩

/-- IS_ERROR: any non-success code counts as a failure. -/
def IS_ERROR (e : ErrorCode) : Bool := e.level != ErrLevel.success

/-- Function id INIT of _SSD1306functionCodes_e. -/
def INIT : Nat := 0

/-- Function id SEND_CMD. -/
def SEND_CMD : Nat := 1

/-- Function id SEND_DATA. -/
def SEND_DATA : Nat := 2

/-- Function id CLR_SCREEN. -/
def CLR_SCREEN : Nat := 3

/-- Function id PRT_ANGLE. -/
def PRT_ANGLE : Nat := 4

/-- Function id PRINTING_ANGLE. -/
def PRINTING_ANGLE : Nat := 5

/-- Function id WAITING_DMA_RDY. -/
def WAITING_DMA_RDY : Nat := 6

/-- SPI_TIMEOUT_MS define of SSD1306.c. -/
def SPI_TIMEOUT_MS : Nat := 10

/-- MAX_PARAMETERS define of SSD1306.c. -/
def MAX_PARAMETERS : Nat := 6

/-- MAX_DATA_SIZE define of SSD1306.c. -/
def MAX_DATA_SIZE : Nat := 1024

/-- MIN_ANGLE_DEG define of SSD1306.c. -/
def MIN_ANGLE_DEG : ℚ := -90

/-- MAX_ANGLE_DEG define of SSD1306.c. -/
def MAX_ANGLE_DEG : ℚ := 90

/-- FLOAT_FACTOR_10 define of SSD1306.c. -/
def FLOAT_FACTOR_10 : ℚ := 10

/-- INT_FACTOR_10 define of SSD1306.c. -/
def INT_FACTOR_10 : Nat := 10

/-- NEG_THRESHOLD define of SSD1306.c (minus 0.05). -/
def NEG_THRESHOLD : ℚ := -1/20

/-- ANGLE_NB_CHARS define of SSD1306.c. -/
def ANGLE_NB_CHARS : Nat := 6

/-- Modelled from the spec: VERDANA_CHAR_WIDTH from the missing header
numbersVerdana16.h; each glyph is 11 columns wide. -/
def VERDANA_CHAR_WIDTH : Nat := 11

/-- Modelled from the spec: VERDANA_NB_PAGES from the missing header
numbersVerdana16.h; two pages per glyph. -/
def VERDANA_NB_PAGES : Nat := 2

/-- Modelled from the spec: VERDANA_NB_BYTES_CHAR from the missing header
numbersVerdana16.h; 22 bytes per glyph. -/
def VERDANA_NB_BYTES_CHAR : Nat := 22

/-- Modelled from the spec: NB_NUMBERS from the missing header
numbersVerdana16.h; 14 glyphs in the table. -/
def NB_NUMBERS : Nat := 14

/-- Modelled from the spec: glyph index of the dot character (spec section 3
enumerates indices 0..9 digits, 10 dot, 11 plus, 12 minus, 13 degree). -/
def INDEX_DOT : Nat := 10

/-- Modelled from the spec: glyph index of the plus sign. -/
def INDEX_PLUS : Nat := 11

/-- Modelled from the spec: glyph index of the minus sign. -/
def INDEX_MINUS : Nat := 12

/-- Modelled from the spec: glyph index of the degree mark. -/
def INDEX_DEG : Nat := 13

/-- Registers of the SSD1306 used by the driver (values of the enum live in
the missing header SSD1306_registers.h; only their identity matters here). -/
inductive SSD1306register_e
  | SCAN_DIRECTION_N1_0
  | HARDWARE_CONFIG
  | SEGMENT_REMAP_127
  | MEMORY_ADDR_MODE
  | CONTRAST_CONTROL
  | CLOCK_DIVIDE_RATIO
  | CHG_PUMP_REGULATOR
  | DISPLAY_ON
  | COLUMN_ADDRESS
  | PAGE_ADDRESS
deriving DecidableEq, Repr

/-- Modelled from the spec: the parameter byte values of the init script
come from the missing header SSD1306_registers.h and are kept abstract. -/
structure RegisterValues where
  hwConfig : Nat
  horizAddr : Nat
  contrastHighest : Nat
  clockMidDiv1 : Nat
  enableChgPump : Nat
deriving DecidableEq, Repr

/-- Observable SPI bus activity of one HAL call. -/
inductive BusEvent
  | cmdByte (reg : SSD1306register_e)
  | paramBytes (ps : List Nat)
  | dataBytes (bs : List Nat)
  | dmaLaunch (bs : List Nat) (len : Nat)
  | dmaStop
deriving DecidableEq, Repr

/-- The three states of the driver state machine (the C code stores a
function pointer; the three possible values are enumerated here). -/
inductive ScreenState
  | stIdle
  | stPrintingAngle
  | stWaitingForTXdone
deriving DecidableEq, Repr

/-- Driver state: machine state, the 1024-byte frame buffer, the latched
request, the DMA deadline, and the two GPIO lines. -/
structure Screen where
  state : ScreenState
  screenBuffer : List Nat
  nextAngle : ℚ
  nextPage : Nat
  nextColumn : Nat
  screenTimer_ms : Nat
  csAsserted : Bool
  dcData : Bool
deriving DecidableEq, Repr

/-- Result of one driver operation: returned error code, new driver state,
and the bus events of the HAL calls made. -/
structure Outcome where
  err : ErrorCode
  scr : Screen
  tr : List BusEvent
deriving DecidableEq, Repr

/-- SSD1306_ENABLE_SPI macro: assert chip select. -/
def SSD1306_ENABLE_SPI (s : Screen) : Screen := { s with csAsserted := true }

/-- SSD1306_DISABLE_SPI macro: deassert chip select. -/
def SSD1306_DISABLE_SPI (s : Screen) : Screen := { s with csAsserted := false }

/-- SSD1306_SET_COMMAND macro: drive the data/command line to command. -/
def SSD1306_SET_COMMAND (s : Screen) : Screen := { s with dcData := false }

/-- SSD1306_SET_DATA macro: drive the data/command line to data. -/
def SSD1306_SET_DATA (s : Screen) : Screen := { s with dcData := true }

/-- SSD1306sendCommand from SSD1306.c. okReg and okPar are the outcomes of
the two blocking HAL transmits. Chip select is asserted for the transfer and
deasserted on every exit path after the first transmit. -/
def SSD1306sendCommand (okReg okPar : Bool) (s : Screen) (regNumber : SSD1306register_e)
    (parameters : Option (List Nat)) (nbParameters : Nat) : Outcome :=
  if nbParameters > MAX_PARAMETERS then
    ⟨createErrorCode SEND_CMD 1 ErrLevel.warning, s, []⟩
  else if okReg = false then
    ⟨createErrorCodeLayer1 SEND_CMD 2 ErrLevel.error,
      SSD1306_DISABLE_SPI (SSD1306_ENABLE_SPI (SSD1306_SET_COMMAND s)),
      [BusEvent.cmdByte regNumber]⟩
  else
    match parameters, nbParameters with
    | some ps, Nat.succ n =>
        ⟨if okPar then ERR_SUCCESS else createErrorCodeLayer1 SEND_CMD 3 ErrLevel.error,
          SSD1306_DISABLE_SPI (SSD1306_ENABLE_SPI (SSD1306_SET_COMMAND s)),
          [BusEvent.cmdByte regNumber, BusEvent.paramBytes (ps.take (Nat.succ n))]⟩
    | _, _ =>
        ⟨ERR_SUCCESS, SSD1306_DISABLE_SPI (SSD1306_ENABLE_SPI (SSD1306_SET_COMMAND s)),
          [BusEvent.cmdByte regNumber]⟩

/-- SSD1306sendData from SSD1306.c. okTx is the outcome of the blocking HAL
transmit. A null pointer or zero size is a success no-op. -/
def SSD1306sendData (okTx : Bool) (s : Screen) (values : Option (List Nat))
    (size : Nat) : Outcome :=
  if values = none ∨ size = 0 then ⟨ERR_SUCCESS, s, []⟩
  else if size > MAX_DATA_SIZE then ⟨createErrorCode SEND_DATA 1 ErrLevel.warning, s, []⟩
  else
    ⟨if okTx then ERR_SUCCESS else createErrorCodeLayer1 SEND_DATA 2 ErrLevel.error,
      SSD1306_DISABLE_SPI (SSD1306_ENABLE_SPI (SSD1306_SET_DATA s)),
      [BusEvent.dataBytes ((values.getD []).take size)]⟩

/-- SSD1306clearScreen from SSD1306.c: column window 0..127, page window
0..31, then the whole frame buffer as one blocking data transfer. -/
def SSD1306clearScreen (ok1 ok2 ok3 ok4 ok5 : Bool) (s : Screen) : Outcome :=
  let o1 := SSD1306sendCommand ok1 ok2 s SSD1306register_e.COLUMN_ADDRESS (some [0, 127]) 2
  if IS_ERROR o1.err then ⟨pushErrorCode o1.err CLR_SCREEN 1, o1.scr, o1.tr⟩
  else
    let o2 := SSD1306sendCommand ok3 ok4 o1.scr SSD1306register_e.PAGE_ADDRESS (some [0, 31]) 2
    if IS_ERROR o2.err then ⟨pushErrorCode o2.err CLR_SCREEN 2, o2.scr, o1.tr ++ o2.tr⟩
    else
      let o3 := SSD1306sendData ok5 o2.scr (some o2.scr.screenBuffer) MAX_DATA_SIZE
      if IS_ERROR o3.err then ⟨pushErrorCode o3.err CLR_SCREEN 3, o3.scr, o1.tr ++ o2.tr ++ o3.tr⟩
      else ⟨ERR_SUCCESS, o3.scr, o1.tr ++ o2.tr ++ o3.tr⟩

/-- One entry of the init script (SSD1306init_t). -/
structure SSD1306init_t where
  reg : SSD1306register_e
  nbParameters : Nat
  value : Nat
deriving DecidableEq, Repr

/-- The initCommands array of SSD1306.c, parametric in the abstract
register parameter bytes. -/
def initCommands (rv : RegisterValues) : List SSD1306init_t :=
  [⟨SSD1306register_e.SCAN_DIRECTION_N1_0, 0, 0⟩,
   ⟨SSD1306register_e.HARDWARE_CONFIG, 1, rv.hwConfig⟩,
   ⟨SSD1306register_e.SEGMENT_REMAP_127, 0, 0⟩,
   ⟨SSD1306register_e.MEMORY_ADDR_MODE, 1, rv.horizAddr⟩,
   ⟨SSD1306register_e.CONTRAST_CONTROL, 1, rv.contrastHighest⟩,
   ⟨ SSD1306register_e.CLOCK_DIVIDE_RATIO, 1, rv.clockMidDiv1⟩,
   ⟨SSD1306register_e.CHG_PUMP_REGULATOR, 1, rv.enableChgPump⟩,
   ⟨SSD1306register_e.DISPLAY_ON, 0, 0⟩]

/-- The command loop of SSD1306initialise. oks gives the two HAL outcomes of
each command; the C code passes a pointer to the single value byte. -/
def initLoop (oks : List (Bool × Bool)) (entries : List SSD1306init_t) (s : Screen) : Outcome :=
  match entries with
  | [] => ⟨ERR_SUCCESS, s, []⟩
  | e :: rest =>
      let ok := oks.headD (true, true)
      let o1 := SSD1306sendCommand ok.1 ok.2 s e.reg (some [e.value]) e.nbParameters
      if IS_ERROR o1.err then ⟨pushErrorCode o1.err INIT 1, o1.scr, o1.tr⟩
      else
        let o2 := initLoop oks.tail rest o1.scr
        ⟨o2.err, o2.scr, o1.tr ++ o2.tr⟩

/-- The driver state at C program start: zero-initialised static frame
buffer, idle state, chip select deasserted. -/
def initialScreen : Screen :=
  ⟨ScreenState.stIdle, List.replicate MAX_DATA_SIZE 0, 0, 0, 0, 0, false, false⟩

/-- SSD1306initialise from SSD1306.c: deassert chip select, pulse reset
(no bus event), issue the 8 init commands, then clear the screen. -/
def SSD1306initialise (rv : RegisterValues) (oks : List (Bool × Bool))
    (okc1 okc2 okc3 okc4 okc5 : Bool) (s : Screen) : Outcome :=
  let s0 := SSD1306_DISABLE_SPI s
  let o1 := initLoop oks (initCommands rv) s0
  if IS_ERROR o1.err then o1
  else
    let o2 := SSD1306clearScreen okc1 okc2 okc3 okc4 okc5 o1.scr
    if IS_ERROR o2.err then ⟨pushErrorCode o2.err INIT 2, o2.scr, o1.tr ++ o2.tr⟩
    else ⟨ERR_SUCCESS, o2.scr, o1.tr ++ o2.tr⟩

/-- Truncation toward zero of a rational, the semantics of a C float to
integer conversion. -/
def ctrunc (q : ℚ) : ℤ := if 0 ≤ q then ⌊q⌋ else -⌊-q⌋

/-- C cast of a float to uint8_t (truncation then reduction mod 256;
negative integral parts, undefined in C, are clamped to zero). -/
def castToUint8 (q : ℚ) : Nat := (ctrunc q).toNat % 256

/-- C cast of a float to uint16_t. -/
def castToUint16 (q : ℚ) : Nat := (ctrunc q).toNat % 65536

/-- The angle actually used for digit extraction: the source negates the
latched angle in place when it is below NEG_THRESHOLD. -/
def normAngle (a : ℚ) : ℚ := if a < NEG_THRESHOLD then -a else a

/-- The sign slot picked by stPrintingAngle. -/
def signIndex (a : ℚ) : Nat := if a < NEG_THRESHOLD then INDEX_MINUS else INDEX_PLUS

/-- The charIndexes array as filled by stPrintingAngle: sign, tens, units,
dot, tenths, degree. -/
def charIndexes (a : ℚ) : List Nat :=
  [signIndex a,
   castToUint8 (normAngle a / FLOAT_FACTOR_10),
   castToUint8 (normAngle a) % INT_FACTOR_10,
   INDEX_DOT,
   castToUint16 (normAngle a * FLOAT_FACTOR_10) % INT_FACTOR_10 % 256,
   INDEX_DEG]

/-- The verdana_16ptNumbers table of numbersVerdana16.c: 14 glyphs of 22
bytes (11 columns of the upper page then 11 of the lower page). -/
def verdana_16ptNumbers : List (List Nat) :=
  [[0xF0, 0xFC, 0x0E, 0x07, 0x03, 0x03, 0x03, 0x07, 0x0E, 0xFC, 0xF0,
    0x0F, 0x3F, 0x70, 0xE0, 0xC0, 0xC0, 0xC0, 0xE0, 0x70, 0x3F, 0x0F],
   [0x00, 0x00, 0x0C, 0x0C, 0x0C, 0xFF, 0xFF, 0x00, 0x00, 0x00, 0x00,
    0x00, 0x00, 0xC0, 0xC0, 0xC0, 0xFF, 0xFF, 0xC0, 0xC0, 0xC0, 0x00],
   [0x00, 0x06, 0x03, 0x03, 0x03, 0x03, 0x03, 0x87, 0xFE, 0x7C, 0x00,
    0x00, 0xE0, 0xF0, 0xF8, 0xDC, 0xCE, 0xC7, 0xC3, 0xC0, 0xC0, 0xC0],
   [0x00, 0x06, 0x03, 0x03, 0xC3, 0xC3, 0xC3, 0xE7, 0x3E, 0x1C, 0x00,
    0x00, 0x60, 0xC0, 0xC0, 0xC0, 0xC0, 0xC0, 0x61, 0x7F, 0x1E, 0x00],
   [0x00, 0x80, 0xC0, 0xF0, 0x38, 0x1C, 0x0E, 0xFF, 0xFF, 0x00, 0x00,
    0x07, 0x07, 0x07, 0x06, 0x06, 0x06, 0x06, 0xFF, 0xFF, 0x06, 0x06],
   [0x00, 0x00, 0xFF, 0xFF, 0xC3, 0xC3, 0xC3, 0xC3, 0xC3, 0x83, 0x03,
    0x00, 0x60, 0xC0, 0xC0, 0xC0, 0xC0, 0xC0, 0xC0, 0x61, 0x7F, 0x1F],
   [0xE0, 0xF8, 0x9C, 0xC6, 0xC7, 0xC3, 0xC3, 0xC3, 0x83, 0x80, 0x00,
    0x0F, 0x3F, 0x71, 0xE0, 0xC0, 0xC0, 0xC0, 0xC0, 0x61, 0x3F, 0x1F],
   [0x00, 0x03, 0x03, 0x03, 0x03, 0x03, 0x03, 0xC3, 0xF3, 0x3F, 0x0F,
    0x00, 0x00, 0x80, 0xE0, 0xF8, 0x3E, 0x0F, 0x03, 0x00, 0x00, 0x00],
   [0x3C, 0x7E, 0x66, 0xC3, 0xC3, 0x83, 0x83, 0xC3, 0x46, 0x7E, 0x3C,
    0x3E, 0x7F, 0x61, 0xC0, 0xC0, 0xC0, 0xC1, 0xC1, 0x63, 0x7F, 0x1E],
   [0xF8, 0xFC, 0x86, 0x03, 0x03, 0x03, 0x03, 0x07, 0x8E, 0xFC, 0xF0,
    0x00, 0x01, 0xC1, 0xC3, 0xC3, 0xC3, 0xE3, 0x63, 0x39, 0x1F, 0x07],
   [0x00, 0x00, 0x00, 0x00, 0x00, 0x00, 0x00, 0x00, 0x00, 0x00, 0x00,
    0x00, 0x00, 0x00, 0x00, 0x00, 0xE0, 0xE0, 0x00, 0x00, 0x00, 0x00],
   [0x00, 0x00, 0x00, 0x00, 0xC0, 0xC0, 0x00, 0x00, 0x00, 0x00, 0x00,
    0x0C, 0x0C, 0x0C, 0x0C, 0xFF, 0xFF, 0x0C, 0x0C, 0x0C, 0x0C, 0x00],
   [0x00, 0x00, 0x00, 0x00, 0x00, 0x00, 0x00, 0x00, 0x00, 0x00, 0x00,
    0x00, 0x00, 0x00, 0x03, 0x03, 0x03, 0x03, 0x03, 0x03, 0x00, 0x00],
   [0x00, 0x00, 0x3C, 0x7E, 0xE7, 0xC3, 0xC3, 0xE7, 0x7E, 0x3C, 0x00,
    0x00, 0x00, 0x00, 0x00, 0x00, 0x00, 0x00, 0x00, 0x00, 0x00, 0x00]]

/-- The rasterization loop of stPrintingAngle: for each page, character and
column, the glyph byte at offset 11 times page plus column. -/
def rasterize (idx : List Nat) : List Nat :=
  (List.range VERDANA_NB_PAGES).flatMap (fun page =>
    (List.range ANGLE_NB_CHARS).flatMap (fun character =>
      (List.range VERDANA_CHAR_WIDTH).map (fun column =>
        ((verdana_16ptNumbers.getD (idx.getD character 0) []).getD
          (VERDANA_CHAR_WIDTH * page + column) 0))))

/-- The data mutations of the rasterization phase of stPrintingAngle: the
angle is negated in place if negative, the first 132 buffer bytes are
overwritten, and the latched page and column are clobbered because the C
loop reuses them as loop counters. -/
def applyRaster (s : Screen) : Screen :=
  { s with
    nextAngle := normAngle s.nextAngle,
    screenBuffer := rasterize (charIndexes s.nextAngle) ++
      s.screenBuffer.drop (VERDANA_NB_PAGES * ANGLE_NB_CHARS * VERDANA_CHAR_WIDTH),
    nextPage := VERDANA_NB_PAGES,
    nextColumn := VERDANA_CHAR_WIDTH }

/-- External inputs of one update tick: HAL outcomes of the two address
window commands, of the DMA launch, and the SPI ready poll. -/
structure TickInput where
  okColReg : Bool
  okColPar : Bool
  okPageReg : Bool
  okPagePar : Bool
  okDmaLaunch : Bool
  spiReady : Bool
deriving DecidableEq, Repr

/-- A tick whose HAL calls all succeed while the SPI stays busy. -/
def allOkBusy : TickInput := ⟨true, true, true, true, true, false⟩

/-- A tick whose HAL calls all succeed and the SPI reports ready. -/
def allOkReady : TickInput := ⟨true, true, true, true, true, true⟩

/-- stPrintingAngle from SSD1306.c. The address limit arrays are computed
from the latched values before the rasterization loop clobbers them. The
check after the PAGE_ADDRESS command reads the stale result of the
COLUMN_ADDRESS command because the assignment is commented out in the
source; that branch is therefore dead. -/
def stPrintingAngleTick (i : TickInput) (s : Screen) : Outcome :=
  let limitColumns : List Nat :=
    [s.nextColumn % 256, (s.nextColumn + VERDANA_CHAR_WIDTH * 6 - 1) % 256]
  let limitPages : List Nat := [s.nextPage % 256, (s.nextPage + 1) % 256]
  let sr := applyRaster s
  let o1 := SSD1306sendCommand i.okColReg i.okColPar sr
    SSD1306register_e.COLUMN_ADDRESS (some limitColumns) 2
  if IS_ERROR o1.err then
    ⟨pushErrorCode o1.err PRINTING_ANGLE 1, { o1.scr with state := ScreenState.stIdle }, o1.tr⟩
  else
    let o2 := SSD1306sendCommand i.okPageReg i.okPagePar o1.scr
      SSD1306register_e.PAGE_ADDRESS (some limitPages) 2
    if IS_ERROR o1.err then
      ⟨pushErrorCode o1.err PRINTING_ANGLE 2, { o2.scr with state := ScreenState.stIdle },
        o1.tr ++ o2.tr⟩
    else
      let s4 := { SSD1306_ENABLE_SPI (SSD1306_SET_DATA o2.scr) with
        screenTimer_ms := SPI_TIMEOUT_MS }
      let ev := BusEvent.dmaLaunch
        (s4.screenBuffer.take (ANGLE_NB_CHARS * VERDANA_NB_BYTES_CHAR))
        (ANGLE_NB_CHARS * VERDANA_NB_BYTES_CHAR)
      if i.okDmaLaunch = false then
        ⟨createErrorCodeLayer1 PRINTING_ANGLE 3 ErrLevel.error,
          { s4 with state := ScreenState.stIdle }, o1.tr ++ o2.tr ++ [ev]⟩
      else
        ⟨ERR_SUCCESS, { s4 with state := ScreenState.stWaitingForTXdone },
          o1.tr ++ o2.tr ++ [ev]⟩

/-- stWaitingForTXdone from SSD1306.c: on an expired deadline, deassert
chip select, stop the DMA, go idle with an error; while the SPI is busy do
nothing; once ready, deassert chip select and go idle. -/
def stWaitingForTXdoneTick (i : TickInput) (s : Screen) : Outcome :=
  if s.screenTimer_ms = 0 then
    ⟨createErrorCode WAITING_DMA_RDY 1 ErrLevel.error,
      { SSD1306_DISABLE_SPI s with state := ScreenState.stIdle }, [BusEvent.dmaStop]⟩
  else if i.spiReady = false then ⟨ERR_SUCCESS, s, []⟩
  else ⟨ERR_SUCCESS, { SSD1306_DISABLE_SPI s with state := ScreenState.stIdle }, []⟩

/-- SSD1306update from SSD1306.c: dispatch on the current state. -/
def SSD1306update (i : TickInput) (s : Screen) : Outcome :=
  match s.state with
  | ScreenState.stIdle => ⟨ERR_SUCCESS, s, []⟩
  | ScreenState.stPrintingAngle => stPrintingAngleTick i s
  | ScreenState.stWaitingForTXdone => stWaitingForTXdoneTick i s

/-- SSD1306_printAngle from SSD1306.c: reject an out-of-range angle with a
warning, otherwise latch the request and move to the printing state. The
page and column bytes are not validated. -/
def SSD1306_printAngle (s : Screen) (angle : ℚ) (page column : Nat) : Outcome :=
  if angle < MIN_ANGLE_DEG ∨ angle > MAX_ANGLE_DEG then
    ⟨createErrorCode PRT_ANGLE 1 ErrLevel.warning, s, []⟩
  else
    ⟨ERR_SUCCESS,
      { s with
        nextAngle := angle,
        nextPage := page % 256,
        nextColumn := column % 256,
        state := ScreenState.stPrintingAngle }, []⟩

/-- isScreenReady from SSD1306.c. -/
def isScreenReady (s : Screen) : Bool := s.state == ScreenState.stIdle

/-- An action of the application super-loop: one millisecond tick followed
by one update call, or a print request. The external interrupt decrements
the deadline once per millisecond, saturating at zero. -/
inductive DriverAct
  | tick (i : TickInput)
  | print (a : ℚ) (page column : Nat)
deriving DecidableEq, Repr

/-- One super-loop step of the driver. -/
def runStep (s : Screen) (act : DriverAct) : Screen :=
  match act with
  | DriverAct.tick i =>
      (SSD1306update i { s with screenTimer_ms := s.screenTimer_ms - 1 }).scr
  | DriverAct.print a p c => (SSD1306_printAngle s a p c).scr

/-- A whole run of the super-loop. -/
def runAll (s : Screen) (acts : List DriverAct) : Screen := acts.foldl runStep s

/-- The run in which the SPI never reports ready: n ticks of allOkBusy,
collecting each update return code. -/
def waitRun (s : Screen) : Nat → List ErrorCode × Screen
  | 0 => ([], s)
  | n + 1 =>
      let p := waitRun s n
      let o := SSD1306update allOkBusy { p.2 with screenTimer_ms := p.2.screenTimer_ms - 1 }
      (p.1 ++ [o.err], o.scr)

/-- Glyph lookup in the font table. -/
def glyphBytes (i : Nat) : List Nat := verdana_16ptNumbers.getD i []

/-- Payload as the spec describes it: the concatenation, page by page then
character by character, of the 11 glyph bytes of that page. -/
def payloadOfSlots (slots : List Nat) : List Nat :=
  (List.range VERDANA_NB_PAGES).flatMap (fun page =>
    slots.flatMap (fun sl =>
      ((glyphBytes sl).drop (VERDANA_CHAR_WIDTH * page)).take VERDANA_CHAR_WIDTH))

/-- The sign-normalised angle as the claim words it: kept when at least
NEG_THRESHOLD, negated otherwise. -/
def specNorm (a : ℚ) : ℚ := if NEG_THRESHOLD ≤ a then a else -a

/-- The six glyph slots exactly as claim C3 words them, with mathematical
floor: sign, floor of a tenth, floor mod 10, dot, floor of ten times mod
10, degree. -/
def slotsSpecFloor (a : ℚ) : List ℤ :=
  [if NEG_THRESHOLD ≤ a then 11 else 12,
   ⌊specNorm a / 10⌋,
   ⌊specNorm a⌋ % 10,
   10,
   ⌊specNorm a * 10⌋ % 10,
   13]

/-- Glyph lookup for an integer slot; negative indices select nothing. -/
def glyphBytesZ (i : ℤ) : List Nat := if 0 ≤ i then glyphBytes i.toNat else []

/-- The payload claim C3 describes: spec concatenation over the floor-based
slots. -/
def payloadSpecFloor (a : ℚ) : List Nat :=
  (List.range VERDANA_NB_PAGES).flatMap (fun page =>
    (slotsSpecFloor a).flatMap (fun sl =>
      ((glyphBytesZ sl).drop (VERDANA_CHAR_WIDTH * page)).take VERDANA_CHAR_WIDTH))

/-- The six glyph slots with C truncation toward zero in place of floor,
the amended reading of claim C3. -/
def slotsTrunc (a : ℚ) : List Nat :=
  [if NEG_THRESHOLD ≤ a then 11 else 12,
   (ctrunc (specNorm a / 10)).toNat,
   (ctrunc (specNorm a)).toNat % 10,
   10,
   (ctrunc (specNorm a * 10)).toNat % 10,
   13]

/-- C6: SSD1306_printAngle succeeds for every angle in the closed interval
from minus 90 to plus 90, latching the request; for every angle outside it
the call returns the AngleOutOfRange warning (function code PRT_ANGLE,
site 1), the driver state and latched request are unchanged, and no SPI
traffic occurs. -/
theorem C6_print_angle_range :
    (∀ s : Screen, ∀ a : ℚ, ∀ p c : Nat, MIN_ANGLE_DEG ≤ a → a ≤ MAX_ANGLE_DEG →
      SSD1306_printAngle s a p c =
        ⟨ERR_SUCCESS,
          { s with
            nextAngle := a,
            nextPage := p % 256,
            nextColumn := c % 256,
            state := ScreenState.stPrintingAngle }, []⟩) ∧
    (∀ s : Screen, ∀ a : ℚ, ∀ p c : Nat, a < MIN_ANGLE_DEG ∨ MAX_ANGLE_DEG < a →
      SSD1306_printAngle s a p c = ⟨createErrorCode PRT_ANGLE 1 ErrLevel.warning, s, []⟩) := by
  constructor
  · intro s a p c h1 h2
    simp only [SSD1306_printAngle]
    rw [if_neg]
    push_neg
    exact ⟨h1, h2⟩
  · intro s a p c h
    simp only [SSD1306_printAngle]
    rw [if_pos h]

/-- Witness for C6: plus and minus 90 succeed, plus and minus 90.01 are
rejected with the warning, leaving the state untouched and the trace
empty. -/
theorem C6_print_angle_range_witness :
    SSD1306_printAngle initialScreen 90 0 0 =
      ⟨ERR_SUCCESS,
        { initialScreen with
          nextAngle := 90,
          nextPage := 0 % 256,
          nextColumn := 0 % 256,
          state := ScreenState.stPrintingAngle }, []⟩ ∧
    SSD1306_printAngle initialScreen (-90) 0 0 =
      ⟨ERR_SUCCESS,
        { initialScreen with
          nextAngle := -90,
          nextPage := 0 % 256,
          nextColumn := 0 % 256,
          state := ScreenState.stPrintingAngle }, []⟩ ∧
    SSD1306_printAngle initialScreen (9001/100) 0 0 =
      ⟨createErrorCode PRT_ANGLE 1 ErrLevel.warning, initialScreen, []⟩ ∧
    SSD1306_printAngle initialScreen (-9001/100) 0 0 =
      ⟨createErrorCode PRT_ANGLE 1 ErrLevel.warning, initialScreen, []⟩ :=
  ⟨C6_print_angle_range.1 initialScreen 90 0 0
      (by norm_num [MIN_ANGLE_DEG]) (by norm_num [MAX_ANGLE_DEG]),
   C6_print_angle_range.1 initialScreen (-90) 0 0
      (by norm_num [MIN_ANGLE_DEG]) (by norm_num [MAX_ANGLE_DEG]),
   C6_print_angle_range.2 initialScreen (9001/100) 0 0
      (Or.inr (by norm_num [MAX_ANGLE_DEG])),
   C6_print_angle_range.2 initialScreen (-9001/100) 0 0
      (Or.inl (by norm_num [MIN_ANGLE_DEG]))⟩

/-- C9: SSD1306sendData is a success no-op on a null pointer or a zero
size, and rejects size 1025 with the SizeTooLarge warning (function code
SEND_DATA, site 1) without touching GPIO lines or the bus. -/
theorem C9_send_data_guards :
    (∀ okTx : Bool, ∀ s : Screen, ∀ size : Nat,
      SSD1306sendData okTx s none size = ⟨ERR_SUCCESS, s, []⟩) ∧
    (∀ okTx : Bool, ∀ s : Screen, ∀ vs : List Nat,
      SSD1306sendData okTx s (some vs) 0 = ⟨ERR_SUCCESS, s, []⟩) ∧
    (∀ okTx : Bool, ∀ s : Screen, ∀ vs : List Nat,
      SSD1306sendData okTx s (some vs) 1025 =
        ⟨createErrorCode SEND_DATA 1 ErrLevel.warning, s, []⟩) := by
  refine ⟨fun okTx s size => ?_, fun okTx s vs => ?_, fun okTx s vs => ?_⟩ <;>
    simp [SSD1306sendData, MAX_DATA_SIZE]

/-- C10: for every current state and arbitrary page and column bytes, a
print request with an in-range angle succeeds, overwrites the latched
request and moves to the printing state; neither the page, nor the column,
nor the current state is checked. -/
theorem C10_print_angle_no_validation :
    ∀ s : Screen, ∀ a : ℚ, ∀ p c : Nat, MIN_ANGLE_DEG ≤ a → a ≤ MAX_ANGLE_DEG →
      (SSD1306_printAngle s a p c).err = ERR_SUCCESS ∧
      (SSD1306_printAngle s a p c).scr =
        { s with
          nextAngle := a,
          nextPage := p % 256,
          nextColumn := c % 256,
          state := ScreenState.stPrintingAngle } := by
  intro s a p c h1 h2
  rw [C6_print_angle_range.1 s a p c h1 h2]
  exact ⟨rfl, rfl⟩

/-- Witness for C10: a request from the middle of a DMA wait, with page 200
and column 200 (far beyond the documented ranges), still succeeds and
relatches. -/
theorem C10_print_angle_no_validation_witness :
    (SSD1306_printAngle
      { initialScreen with state := ScreenState.stWaitingForTXdone } 0 200 200).err =
        ERR_SUCCESS ∧
    (SSD1306_printAngle
      { initialScreen with state := ScreenState.stWaitingForTXdone } 0 200 200).scr =
      { { initialScreen with state := ScreenState.stWaitingForTXdone } with
        nextAngle := 0,
        nextPage := 200 % 256,
        nextColumn := 200 % 256,
        state := ScreenState.stPrintingAngle } :=
  C10_print_angle_no_validation
    { initialScreen with state := ScreenState.stWaitingForTXdone } 0 200 200
    (by norm_num [MIN_ANGLE_DEG]) (by norm_num [MAX_ANGLE_DEG])

/-- C4: for every in-range angle, the sign slot is the plus glyph exactly
when the angle is at least NEG_THRESHOLD and the minus glyph otherwise;
when the minus glyph is chosen the angle used for digit extraction is the
negated angle; and any angle of magnitude below 0.05 gets the plus
glyph. -/
theorem C4_sign_slot :
    ∀ a : ℚ, MIN_ANGLE_DEG ≤ a → a ≤ MAX_ANGLE_DEG →
      ((charIndexes a).getD 0 0 =
        if NEG_THRESHOLD ≤ a then INDEX_PLUS else INDEX_MINUS) ∧
      (a < NEG_THRESHOLD → normAngle a = -a) ∧
      (|a| < 1/20 → (charIndexes a).getD 0 0 = INDEX_PLUS) := by
  intro a h1 h2
  refine ⟨?_, ?_, ?_⟩
  · by_cases h : a < NEG_THRESHOLD
    · simp [charIndexes, signIndex, h, not_le.mpr h]
    · simp [charIndexes, signIndex, h, not_lt.mp h]
  · intro h
    simp [normAngle, h]
  · intro h
    rw [abs_lt] at h
    have hge : NEG_THRESHOLD ≤ a := by
      unfold NEG_THRESHOLD
      linarith [h.1]
    simp [charIndexes, signIndex, not_lt.mpr hge, hge]

/-- Witness for C4: at angle minus 3 hundredths the sign slot is the plus
glyph even though the angle is negative, and at minus 1 tenth the slot is
the minus glyph with the extraction angle negated. -/
theorem C4_sign_slot_witness :
    ((charIndexes (-3/100)).getD 0 0 =
      if NEG_THRESHOLD ≤ (-3/100 : ℚ) then INDEX_PLUS else INDEX_MINUS) ∧
    ((-3/100 : ℚ) < NEG_THRESHOLD → normAngle (-3/100) = -(-3/100)) ∧
    (|(-3/100 : ℚ)| < 1/20 → (charIndexes (-3/100)).getD 0 0 = INDEX_PLUS) :=
  C4_sign_slot (-3/100) (by norm_num [MIN_ANGLE_DEG]) (by norm_num [MAX_ANGLE_DEG])

/-- The end column of the render window: 6 glyph widths minus one past the
start. -/
theorem col_end_eq (c : Nat) : c + VERDANA_CHAR_WIDTH * 6 - 1 = c + 65 := by
  unfold VERDANA_CHAR_WIDTH
  omega

/-- C7: on a Rasterizing tick whose command transfers succeed, the first
four bus events program the address window: COLUMN_ADDRESS with parameters
column and column plus 65, then PAGE_ADDRESS with parameters page and page
plus one, all taken from the latched values before the rasterization loop
clobbers them (byte arithmetic is modulo 256; for latched values within
the documented ranges the modulus is the identity). -/
theorem C7_address_window :
    ∀ i : TickInput, ∀ s : Screen, s.state = ScreenState.stPrintingAngle →
      i.okColReg = true → i.okColPar = true → i.okPageReg = true → i.okPagePar = true →
      ((SSD1306update i s).tr.take 4 =
        [BusEvent.cmdByte SSD1306register_e.COLUMN_ADDRESS,
         BusEvent.paramBytes [s.nextColumn % 256, (s.nextColumn + 65) % 256],
         BusEvent.cmdByte SSD1306register_e.PAGE_ADDRESS,
         BusEvent.paramBytes [s.nextPage % 256, (s.nextPage + 1) % 256]]) ∧
      (s.nextPage ≤ 6 → s.nextColumn ≤ 61 →
        (SSD1306update i s).tr.take 4 =
          [BusEvent.cmdByte SSD1306register_e.COLUMN_ADDRESS,
           BusEvent.paramBytes [s.nextColumn, s.nextColumn + 65],
           BusEvent.cmdByte SSD1306register_e.PAGE_ADDRESS,
           BusEvent.paramBytes [s.nextPage, s.nextPage + 1]]) := by
  intro i s hst hcr hcp hpr hpp
  obtain ⟨cr, cp, pr, pp, dl, sp⟩ := i
  simp only at hcr hcp hpr hpp
  subst hcr hcp hpr hpp
  obtain ⟨st, buf, ang, pg, col, tmr, cs, dc⟩ := s
  simp only at hst
  subst hst
  have base : (SSD1306update ⟨true, true, true, true, dl, sp⟩
      ⟨ScreenState.stPrintingAngle, buf, ang, pg, col, tmr, cs, dc⟩).tr.take 4 =
      [BusEvent.cmdByte SSD1306register_e.COLUMN_ADDRESS,
       BusEvent.paramBytes [col % 256, (col + 65) % 256],
       BusEvent.cmdByte SSD1306register_e.PAGE_ADDRESS,
       BusEvent.paramBytes [pg % 256, (pg + 1) % 256]] := by
    cases dl <;>
      simp [SSD1306update, stPrintingAngleTick, SSD1306sendCommand, IS_ERROR,
        ERR_SUCCESS, createErrorCode, createErrorCodeLayer1, pushErrorCode,
        SSD1306_ENABLE_SPI, SSD1306_DISABLE_SPI, SSD1306_SET_COMMAND, SSD1306_SET_DATA,
        applyRaster, MAX_PARAMETERS, col_end_eq, List.take]
  refine ⟨base, fun hpg hcol => ?_⟩
  dsimp only at hpg hcol ⊢
  rw [base, Nat.mod_eq_of_lt (by omega), Nat.mod_eq_of_lt (by omega),
    Nat.mod_eq_of_lt (by omega), Nat.mod_eq_of_lt (by omega)]

/-- Witness for C7: a tick from a latched request at page 5, column 20
issues COLUMN_ADDRESS 20 to 85 and PAGE_ADDRESS 5 to 6. -/
theorem C7_address_window_witness :
    ((SSD1306update allOkBusy (SSD1306_printAngle initialScreen 0 5 20).scr).tr.take 4 =
      [BusEvent.cmdByte SSD1306register_e.COLUMN_ADDRESS,
       BusEvent.paramBytes
         [(SSD1306_printAngle initialScreen 0 5 20).scr.nextColumn % 256,
          ((SSD1306_printAngle initialScreen 0 5 20).scr.nextColumn + 65) % 256],
       BusEvent.cmdByte SSD1306register_e.PAGE_ADDRESS,
       BusEvent.paramBytes
         [(SSD1306_printAngle initialScreen 0 5 20).scr.nextPage % 256,
          ((SSD1306_printAngle initialScreen 0 5 20).scr.nextPage + 1) % 256]]) ∧
    ((SSD1306_printAngle initialScreen 0 5 20).scr.nextPage ≤ 6 →
      (SSD1306_printAngle initialScreen 0 5 20).scr.nextColumn ≤ 61 →
      (SSD1306update allOkBusy (SSD1306_printAngle initialScreen 0 5 20).scr).tr.take 4 =
        [BusEvent.cmdByte SSD1306register_e.COLUMN_ADDRESS,
         BusEvent.paramBytes
           [(SSD1306_printAngle initialScreen 0 5 20).scr.nextColumn,
            (SSD1306_printAngle initialScreen 0 5 20).scr.nextColumn + 65],
         BusEvent.cmdByte SSD1306register_e.PAGE_ADDRESS,
         BusEvent.paramBytes
           [(SSD1306_printAngle initialScreen 0 5 20).scr.nextPage,
            (SSD1306_printAngle initialScreen 0 5 20).scr.nextPage + 1]]) :=
  C7_address_window allOkBusy (SSD1306_printAngle initialScreen 0 5 20).scr
    rfl rfl rfl rfl rfl

set_option maxRecDepth 20000 in
/-- C8: a fully successful SSD1306initialise from the reset state emits
exactly the eight init command transactions in script order, then the
clear screen traffic: COLUMN_ADDRESS 0 to 127, PAGE_ADDRESS 0 to 31, and
one blocking data transfer of the 1024 zero bytes of the frame buffer. -/
theorem C8_init_sequence :
    ∀ rv : RegisterValues,
      (SSD1306initialise rv [] true true true true true initialScreen).err = ERR_SUCCESS ∧
      (SSD1306initialise rv [] true true true true true initialScreen).tr =
        [BusEvent.cmdByte SSD1306register_e.SCAN_DIRECTION_N1_0,
         BusEvent.cmdByte SSD1306register_e.HARDWARE_CONFIG,
         BusEvent.paramBytes [rv.hwConfig],
         BusEvent.cmdByte SSD1306register_e.SEGMENT_REMAP_127,
         BusEvent.cmdByte SSD1306register_e.MEMORY_ADDR_MODE,
         BusEvent.paramBytes [rv.horizAddr],
         BusEvent.cmdByte SSD1306register_e.CONTRAST_CONTROL,
         BusEvent.paramBytes [rv.contrastHighest],
         BusEvent.cmdByte SSD1306register_e.CLOCK_DIVIDE_RATIO,
         BusEvent.paramBytes [rv.clockMidDiv1],
         BusEvent.cmdByte SSD1306register_e.CHG_PUMP_REGULATOR,
         BusEvent.paramBytes [rv.enableChgPump],
         BusEvent.cmdByte SSD1306register_e.DISPLAY_ON,
         BusEvent.cmdByte SSD1306register_e.COLUMN_ADDRESS,
         BusEvent.paramBytes [0, 127],
         BusEvent.cmdByte SSD1306register_e.PAGE_ADDRESS,
         BusEvent.paramBytes [0, 31],
         BusEvent.dataBytes (List.replicate 1024 0)] := by
  intro rv
  exact ⟨rfl, rfl⟩

/-- A tick on which the PAGE_ADDRESS command transfer fails while the
COLUMN_ADDRESS command and the DMA launch succeed. -/
def pageFailTick : TickInput := ⟨true, true, false, false, true, false⟩

/-- C1 failing input: with the PAGE_ADDRESS transfer failing on the
Rasterizing tick, the update call still returns ERR_SUCCESS and moves to
the DMA wait state instead of surfacing the error and going idle, because
the source checks a stale result (the assignment at the PAGE_ADDRESS call
is commented out). -/
theorem C1_page_check_dead :
    (SSD1306update pageFailTick (SSD1306_printAngle initialScreen 0 0 0).scr).err =
      ERR_SUCCESS ∧
    (SSD1306update pageFailTick (SSD1306_printAngle initialScreen 0 0 0).scr).scr.state =
      ScreenState.stWaitingForTXdone :=
  ⟨rfl, rfl⟩

/-- A tick on which both address window commands succeed but the DMA
launch fails, with the SPI busy. -/
def dmaFailTick : TickInput := ⟨true, true, true, true, false, false⟩

/-- C2 counterexample: a valid request followed by a tick whose DMA launch
fails leaves the driver Idle with the chip select line still asserted; the
DMA launch failure path never deasserts it. -/
theorem C2_counterexample :
    (runAll initialScreen [DriverAct.print 0 0 0, DriverAct.tick dmaFailTick]).state =
      ScreenState.stIdle ∧
    (runAll initialScreen [DriverAct.print 0 0 0, DriverAct.tick dmaFailTick]).csAsserted =
      true :=
  ⟨rfl, rfl⟩

/-- Chip select is deasserted whenever the driver is Idle. -/
def CsIdleInv (s : Screen) : Prop :=
  s.state = ScreenState.stIdle → s.csAsserted = false

/-- A run action allowed by the amended claim C2: print requests are in
range and DMA launches succeed; blocking SPI transfers may still fail. -/
def actOk : DriverAct → Prop
  | DriverAct.tick i => i.okDmaLaunch = true
  | DriverAct.print a _ _ => MIN_ANGLE_DEG ≤ a ∧ a ≤ MAX_ANGLE_DEG

/-- One super-loop step preserves the chip select invariant provided the
DMA launch does not fail on that step. -/
theorem csIdleInv_step (s : Screen) (x : DriverAct) (hx : actOk x) (hs : CsIdleInv s) :
    CsIdleInv (runStep s x) := by
  cases x with
  | print a p c =>
      simp only [runStep, SSD1306_printAngle]
      split
      · exact hs
      · intro h
        simp at h
  | tick i =>
      obtain ⟨cr, cp, pr, pp, dl, sp⟩ := i
      simp only [actOk] at hx
      subst hx
      obtain ⟨st, buf, ang, pg, col, tmr, cs, dc⟩ := s
      cases st with
      | stIdle =>
          intro h
          exact hs rfl
      | stPrintingAngle =>
          cases cr <;> cases cp <;> cases pr <;> cases pp <;>
            simp [runStep, SSD1306update, stPrintingAngleTick, SSD1306sendCommand,
              applyRaster, IS_ERROR, ERR_SUCCESS, createErrorCode, createErrorCodeLayer1,
              pushErrorCode, SSD1306_ENABLE_SPI, SSD1306_DISABLE_SPI, SSD1306_SET_COMMAND,
              SSD1306_SET_DATA, MAX_PARAMETERS, CsIdleInv]
      | stWaitingForTXdone =>
          cases sp <;>
            simp only [runStep, SSD1306update, stWaitingForTXdoneTick, SSD1306_DISABLE_SPI,
              CsIdleInv] <;>
            split_ifs <;> simp

/-- C2 amended: for every run of in-range requests and ticks whose DMA
launches succeed (blocking command transfers may fail), from any state
satisfying the invariant, chip select is deasserted whenever the driver is
Idle. As C2_counterexample shows, a failed DMA launch breaks this: it
returns to Idle with chip select left asserted. -/
theorem C2_cs_idle_invariant :
    ∀ acts : List DriverAct, (∀ x ∈ acts, actOk x) → ∀ s : Screen, CsIdleInv s →
      CsIdleInv (runAll s acts) := by
  intro acts
  induction acts with
  | nil =>
      intro _ s hs
      exact hs
  | cons x xs ih =>
      intro h s hs
      exact ih (fun y hy => h y (List.mem_cons_of_mem x hy)) (runStep s x)
        (csIdleInv_step s x (h x (List.mem_cons_self x xs)) hs)

/-- Witness for the amended C2: a complete successful print run from reset
keeps the invariant. -/
theorem C2_cs_idle_invariant_witness :
    CsIdleInv (runAll initialScreen
      [DriverAct.print 0 0 0, DriverAct.tick allOkBusy, DriverAct.tick allOkReady]) :=
  C2_cs_idle_invariant
    [DriverAct.print 0 0 0, DriverAct.tick allOkBusy, DriverAct.tick allOkReady]
    (by
      intro x hx
      simp only [List.mem_cons, List.not_mem_nil, or_false] at hx
      rcases hx with h | h | h <;> subst h <;>
        simp [actOk, allOkBusy, allOkReady, MIN_ANGLE_DEG, MAX_ANGLE_DEG])
    initialScreen (fun _ => rfl)

/-- The DmaTimeout error code: function WAITING_DMA_RDY, site 1, severity
error. -/
def dmaTimeoutCode : ErrorCode := createErrorCode WAITING_DMA_RDY 1 ErrLevel.error

/-- A busy wait tick with a nonzero deadline leaves the state untouched
and reports success. -/
theorem wait_step_busy (buf : List Nat) (ang : ℚ) (pg col : Nat) (dc : Bool) (t : Nat)
    (ht : t ≠ 0) :
    SSD1306update allOkBusy ⟨ScreenState.stWaitingForTXdone, buf, ang, pg, col, t, true, dc⟩ =
      ⟨ERR_SUCCESS, ⟨ScreenState.stWaitingForTXdone, buf, ang, pg, col, t, true, dc⟩, []⟩ := by
  simp [SSD1306update, stWaitingForTXdoneTick, allOkBusy, ht]

/-- A wait tick with an expired deadline stops the DMA, deasserts chip
select, goes idle and reports the timeout. -/
theorem wait_step_timeout (buf : List Nat) (ang : ℚ) (pg col : Nat) (cs dc : Bool) :
    SSD1306update allOkBusy ⟨ScreenState.stWaitingForTXdone, buf, ang, pg, col, 0, cs, dc⟩ =
      ⟨dmaTimeoutCode, ⟨ScreenState.stIdle, buf, ang, pg, col, 0, false, dc⟩,
        [BusEvent.dmaStop]⟩ := by
  simp [SSD1306update, stWaitingForTXdoneTick, SSD1306_DISABLE_SPI, dmaTimeoutCode]

/-- One unfolding step of waitRun: decrement the deadline, run one update,
append its return code. -/
theorem waitRun_succ (s : Screen) (n : Nat) :
    waitRun s (n + 1) =
      ((waitRun s n).1 ++ [(SSD1306update allOkBusy
          { (waitRun s n).2 with
            screenTimer_ms := (waitRun s n).2.screenTimer_ms - 1 }).err],
       (SSD1306update allOkBusy
          { (waitRun s n).2 with
            screenTimer_ms := (waitRun s n).2.screenTimer_ms - 1 }).scr) := rfl

/-- An update from the idle state returns success and changes nothing. -/
theorem idle_step (i : TickInput) (buf : List Nat) (ang : ℚ) (pg col t : Nat)
    (cs dc : Bool) :
    SSD1306update i ⟨ScreenState.stIdle, buf, ang, pg, col, t, cs, dc⟩ =
      ⟨ERR_SUCCESS, ⟨ScreenState.stIdle, buf, ang, pg, col, t, cs, dc⟩, []⟩ := rfl

/-- The first nine busy ticks after a launch each report success and only
count the deadline down. -/
theorem waitRun_busy (buf : List Nat) (ang : ℚ) (pg col : Nat) (dc : Bool) :
    ∀ k, k ≤ 9 →
      waitRun ⟨ScreenState.stWaitingForTXdone, buf, ang, pg, col, 10, true, dc⟩ k =
        (List.replicate k ERR_SUCCESS,
         ⟨ScreenState.stWaitingForTXdone, buf, ang, pg, col, 10 - k, true, dc⟩) := by
  intro k
  induction k with
  | zero =>
      intro _
      rfl
  | succ n ih =>
      intro hk
      have hn : n ≤ 9 := by omega
      rw [waitRun_succ, ih hn]
      dsimp only
      rw [show (10 - n - 1 : Nat) = 10 - (n + 1) by omega]
      rw [wait_step_busy buf ang pg col dc (10 - (n + 1)) (by omega)]
      simp [List.replicate_succ']

/-- Closed form of a never-ready run: nine successes, the timeout at the
tenth tick, then successes from the idle state; the final state is idle
with chip select deasserted and the deadline at zero. -/
theorem waitRun_closed (buf : List Nat) (ang : ℚ) (pg col : Nat) (dc : Bool) :
    ∀ m,
      waitRun ⟨ScreenState.stWaitingForTXdone, buf, ang, pg, col, 10, true, dc⟩ (10 + m) =
        (List.replicate 9 ERR_SUCCESS ++ [dmaTimeoutCode] ++ List.replicate m ERR_SUCCESS,
         ⟨ScreenState.stIdle, buf, ang, pg, col, 0, false, dc⟩) := by
  intro m
  induction m with
  | zero =>
      rw [show (10 + 0 : Nat) = 9 + 1 by rfl, waitRun_succ,
        waitRun_busy buf ang pg col dc 9 (by omega)]
      dsimp only
      rw [show (10 - 9 - 1 : Nat) = 0 by omega,
        wait_step_timeout buf ang pg col true dc]
      simp
  | succ n ih =>
      rw [show 10 + (n + 1) = (10 + n) + 1 by omega, waitRun_succ, ih]
      dsimp only
      rw [idle_step allOkBusy buf ang pg col (0 - 1) false dc]
      simp [List.replicate_succ', List.append_assoc]

/-- C5: the Rasterizing tick arms the deadline at SPI_TIMEOUT_MS
milliseconds when it launches the DMA (first part); and from the wait
state with a full deadline and the SPI never reporting ready, the run of
any length of at least ten ticks reports the DmaTimeout error exactly
once, at the tenth tick, every other tick reporting success, and ends
idle with the deadline at zero and chip select deasserted; the timeout
tick itself emits the DMA abort (second part). -/
theorem C5_dma_timeout :
    (∀ i : TickInput, ∀ s : Screen, s.state = ScreenState.stPrintingAngle →
      i.okColReg = true → i.okColPar = true → i.okDmaLaunch = true →
      (SSD1306update i s).scr.screenTimer_ms = SPI_TIMEOUT_MS ∧
      (SSD1306update i s).scr.state = ScreenState.stWaitingForTXdone ∧
      (SSD1306update i s).scr.csAsserted = true) ∧
    (∀ s : Screen, s.state = ScreenState.stWaitingForTXdone → s.csAsserted = true →
      s.screenTimer_ms = 10 → ∀ m : Nat,
      (waitRun s (10 + m)).1 =
        List.replicate 9 ERR_SUCCESS ++ [dmaTimeoutCode] ++ List.replicate m ERR_SUCCESS ∧
      (waitRun s (10 + m)).2 =
        { s with
          screenTimer_ms := 0,
          csAsserted := false,
          state := ScreenState.stIdle } ∧
      (SSD1306update allOkBusy
        { (waitRun s 9).2 with
          screenTimer_ms := (waitRun s 9).2.screenTimer_ms - 1 }).tr =
        [BusEvent.dmaStop]) := by
  constructor
  · intro i s hst hcr hcp hdl
    obtain ⟨cr, cp, pr, pp, dl, sp⟩ := i
    simp only at hcr hcp hdl
    subst hcr hcp hdl
    obtain ⟨st, buf, ang, pg, col, tmr, cs, dc⟩ := s
    simp only at hst
    subst hst
    cases pr <;> cases pp <;>
      simp [SSD1306update, stPrintingAngleTick, SSD1306sendCommand, applyRaster,
        IS_ERROR, ERR_SUCCESS, createErrorCode, createErrorCodeLayer1, pushErrorCode,
        SSD1306_ENABLE_SPI, SSD1306_DISABLE_SPI, SSD1306_SET_COMMAND, SSD1306_SET_DATA,
        MAX_PARAMETERS, SPI_TIMEOUT_MS]
  · intro s hst hcs ht m
    obtain ⟨st, buf, ang, pg, col, tmr, cs, dc⟩ := s
    simp only at hst hcs ht
    subst hst hcs ht
    refine ⟨?_, ?_, ?_⟩
    · rw [waitRun_closed buf ang pg col dc m]
    · rw [waitRun_closed buf ang pg col dc m]
    · rw [waitRun_busy buf ang pg col dc 9 (by omega)]
      rw [show (10 - 9 - 1 : Nat) = 0 by omega]
      rw [wait_step_timeout buf ang pg col true dc]

/-- Witness for C5: a concrete launch from reset arms the deadline at 10,
and the concrete never-ready run of 12 ticks shows the single timeout at
the tenth tick, the DMA abort on that tick, and the idle final state. -/
theorem C5_dma_timeout_witness :
    ((SSD1306update allOkBusy (SSD1306_printAngle initialScreen 0 0 0).scr).scr.screenTimer_ms =
        SPI_TIMEOUT_MS ∧
      (SSD1306update allOkBusy (SSD1306_printAngle initialScreen 0 0 0).scr).scr.state =
        ScreenState.stWaitingForTXdone ∧
      (SSD1306update allOkBusy (SSD1306_printAngle initialScreen 0 0 0).scr).scr.csAsserted =
        true) ∧
    ((waitRun (runAll initialScreen [DriverAct.print 0 0 0, DriverAct.tick allOkBusy])
        (10 + 2)).1 =
        List.replicate 9 ERR_SUCCESS ++ [dmaTimeoutCode] ++ List.replicate 2 ERR_SUCCESS ∧
      (waitRun (runAll initialScreen [DriverAct.print 0 0 0, DriverAct.tick allOkBusy])
        (10 + 2)).2 =
        { runAll initialScreen [DriverAct.print 0 0 0, DriverAct.tick allOkBusy] with
          screenTimer_ms := 0,
          csAsserted := false,
          state := ScreenState.stIdle } ∧
      (SSD1306update allOkBusy
        { (waitRun (runAll initialScreen
            [DriverAct.print 0 0 0, DriverAct.tick allOkBusy]) 9).2 with
          screenTimer_ms := (waitRun (runAll initialScreen
            [DriverAct.print 0 0 0, DriverAct.tick allOkBusy]) 9).2.screenTimer_ms - 1 }).tr =
        [BusEvent.dmaStop]) :=
  ⟨C5_dma_timeout.1 allOkBusy (SSD1306_printAngle initialScreen 0 0 0).scr rfl rfl rfl rfl,
   C5_dma_timeout.2
     (runAll initialScreen [DriverAct.print 0 0 0, DriverAct.tick allOkBusy]) rfl rfl rfl 2⟩

/-- The length of the rasterized payload is always 2 pages times 6
characters times 11 columns. -/
theorem rasterize_length (idx : List Nat) : (rasterize idx).length = 132 := rfl

/-- For every glyph of the table and each of its two pages, reading 11
bytes at consecutive offsets equals the corresponding slice of the
glyph. -/
theorem glyph_row_eq : ∀ j, j < 14 → ∀ page, page < 2 →
    (List.range 11).map (fun column =>
      (verdana_16ptNumbers.getD j []).getD (11 * page + column) 0) =
      ((glyphBytes j).drop (11 * page)).take 11 := by decide

/-- The rasterization loop produces exactly the spec concatenation of the
glyph slices of its six slots, provided the slots are valid glyph
indices. -/
theorem rasterize_eq_payloadOfSlots (idx : List Nat)
    (h0 : idx.getD 0 0 < 14) (h1 : idx.getD 1 0 < 14) (h2 : idx.getD 2 0 < 14)
    (h3 : idx.getD 3 0 < 14) (h4 : idx.getD 4 0 < 14) (h5 : idx.getD 5 0 < 14) :
    rasterize idx =
      payloadOfSlots [idx.getD 0 0, idx.getD 1 0, idx.getD 2 0, idx.getD 3 0,
        idx.getD 4 0, idx.getD 5 0] := by
  simp only [rasterize, payloadOfSlots, VERDANA_NB_PAGES, ANGLE_NB_CHARS, VERDANA_CHAR_WIDTH]
  rw [show List.range 2 = [0, 1] from rfl, show List.range 6 = [0, 1, 2, 3, 4, 5] from rfl]
  simp only [List.flatMap_cons, List.flatMap_nil, List.append_nil]
  rw [glyph_row_eq _ h0 0 (by omega), glyph_row_eq _ h1 0 (by omega),
    glyph_row_eq _ h2 0 (by omega), glyph_row_eq _ h3 0 (by omega),
    glyph_row_eq _ h4 0 (by omega), glyph_row_eq _ h5 0 (by omega),
    glyph_row_eq _ h0 1 (by omega), glyph_row_eq _ h1 1 (by omega),
    glyph_row_eq _ h2 1 (by omega), glyph_row_eq _ h3 1 (by omega),
    glyph_row_eq _ h4 1 (by omega), glyph_row_eq _ h5 1 (by omega)]

/-- Truncation toward zero never exceeds a natural upper bound of the
rational. -/
theorem ctrunc_le_nat (q : ℚ) (n : Nat) (h : q ≤ (n : ℚ)) : ctrunc q ≤ (n : ℤ) := by
  unfold ctrunc
  split
  · next hq =>
      calc ⌊q⌋ ≤ ⌊(n : ℚ)⌋ := Int.floor_le_floor h
        _ = n := Int.floor_natCast n
  · next hq =>
      have h2 : (0 : ℤ) ≤ ⌊-q⌋ := Int.floor_nonneg.mpr (by linarith)
      omega

/-- Natural number form of the truncation bound. -/
theorem ctrunc_toNat_le (q : ℚ) (n : Nat) (h : q ≤ (n : ℚ)) : (ctrunc q).toNat ≤ n :=
  Int.toNat_le.mpr (ctrunc_le_nat q n h)

/-- The sign-normalised angle of the claim agrees with the in-place
negation done by the source. -/
theorem specNorm_eq_normAngle (a : ℚ) : specNorm a = normAngle a := by
  unfold specNorm normAngle
  by_cases h : NEG_THRESHOLD ≤ a
  · rw [if_pos h, if_neg (not_lt.mpr h)]
  · rw [if_neg h, if_pos (not_le.mp h)]

/-- The extraction angle stays at most 90 for in-range requests. -/
theorem normAngle_le (a : ℚ) (ha1 : MIN_ANGLE_DEG ≤ a) (ha2 : a ≤ MAX_ANGLE_DEG) :
    normAngle a ≤ 90 := by
  unfold MIN_ANGLE_DEG at ha1
  unfold MAX_ANGLE_DEG at ha2
  unfold normAngle
  split <;> linarith

/-- For in-range angles the charIndexes array of the source equals the
truncation-based slot description. -/
theorem charIndexes_eq_slotsTrunc (a : ℚ) (ha1 : MIN_ANGLE_DEG ≤ a)
    (ha2 : a ≤ MAX_ANGLE_DEG) : charIndexes a = slotsTrunc a := by
  have hA : normAngle a ≤ 90 := normAngle_le a ha1 ha2
  have htens : (ctrunc (normAngle a / 10)).toNat ≤ 9 :=
    ctrunc_toNat_le _ 9 (by
      rw [div_le_iff₀ (by norm_num : (0:ℚ) < 10)]
      push_cast
      linarith)
  have hunits : (ctrunc (normAngle a)).toNat ≤ 90 :=
    ctrunc_toNat_le _ 90 (by push_cast; linarith)
  have htenths : (ctrunc (normAngle a * 10)).toNat ≤ 900 :=
    ctrunc_toNat_le _ 900 (by push_cast; linarith)
  have hsign : signIndex a = if NEG_THRESHOLD ≤ a then (11 : Nat) else 12 := by
    unfold signIndex INDEX_PLUS INDEX_MINUS
    by_cases h : NEG_THRESHOLD ≤ a
    · rw [if_neg (not_lt.mpr h), if_pos h]
    · rw [if_pos (not_le.mp h), if_neg h]
  unfold charIndexes slotsTrunc castToUint8 castToUint16 FLOAT_FACTOR_10 INT_FACTOR_10
  unfold INDEX_DOT INDEX_DEG
  simp only [specNorm_eq_normAngle]
  simp only [List.cons.injEq, and_true, true_and]
  exact ⟨hsign, by omega, by omega, by omega⟩

/-- C3 counterexample: at the in-range angle minus 3 hundredths, the
payload the code produces differs byte for byte from the payload built
from the floor-based slot formula of the claim: mathematical floor of a
negative fraction is minus one, so the floor formula selects the glyphs
9 for the units and tenths slots, while the C casts truncate toward zero
and select the glyph 0. -/
theorem C3_floor_formula_fails :
    rasterize (charIndexes (-3/100)) ≠ payloadSpecFloor (-3/100) := by
  have hci : charIndexes (-3/100) = [11, 0, 0, 10, 0, 13] := by
    norm_num [charIndexes, signIndex, normAngle, castToUint8, castToUint16, ctrunc,
      NEG_THRESHOLD, FLOAT_FACTOR_10, INT_FACTOR_10, INDEX_DOT, INDEX_DEG, INDEX_PLUS,
      INDEX_MINUS]
  have hsl : slotsSpecFloor (-3/100) = [11, -1, 9, 10, 9, 13] := by
    norm_num [slotsSpecFloor, specNorm, NEG_THRESHOLD]
  rw [hci]
  unfold payloadSpecFloor
  rw [hsl]
  decide

/-- C3 amended: for every latched in-range request handled by a Rasterizing
tick whose HAL calls succeed, the payload is exactly 132 bytes, the slot
array equals the spec slot description with C truncation toward zero in
place of mathematical floor (they agree for nonnegative normalised angles),
the payload equals the spec concatenation of the glyph slices of those
slots page by page then character by character, the DMA is launched with
exactly those 132 bytes as the trailing bus event, and the payload sits in
the first 132 bytes of the frame buffer. -/
theorem C3_payload_roundtrip :
    ∀ i : TickInput, ∀ s : Screen, s.state = ScreenState.stPrintingAngle →
      MIN_ANGLE_DEG ≤ s.nextAngle → s.nextAngle ≤ MAX_ANGLE_DEG →
      i.okColReg = true → i.okColPar = true → i.okPageReg = true → i.okPagePar = true →
      i.okDmaLaunch = true →
      (rasterize (charIndexes s.nextAngle)).length = 132 ∧
      charIndexes s.nextAngle = slotsTrunc s.nextAngle ∧
      rasterize (charIndexes s.nextAngle) = payloadOfSlots (slotsTrunc s.nextAngle) ∧
      (SSD1306update i s).tr.getLast? =
        some (BusEvent.dmaLaunch (rasterize (charIndexes s.nextAngle)) 132) ∧
      (SSD1306update i s).scr.screenBuffer.take 132 = rasterize (charIndexes s.nextAngle) := by
  intro i s hst ha1 ha2 hcr hcp hpr hpp hdl
  have hA : normAngle s.nextAngle ≤ 90 := normAngle_le s.nextAngle ha1 ha2
  have htens : (ctrunc (normAngle s.nextAngle / 10)).toNat ≤ 9 :=
    ctrunc_toNat_le _ 9 (by
      rw [div_le_iff₀ (by norm_num : (0:ℚ) < 10)]
      push_cast
      linarith)
  have hslots : charIndexes s.nextAngle = slotsTrunc s.nextAngle :=
    charIndexes_eq_slotsTrunc s.nextAngle ha1 ha2
  have hb0 : (charIndexes s.nextAngle).getD 0 0 < 14 := by
    show signIndex s.nextAngle < 14
    unfold signIndex INDEX_PLUS INDEX_MINUS
    split <;> omega
  have hb1 : (charIndexes s.nextAngle).getD 1 0 < 14 := by
    show castToUint8 (normAngle s.nextAngle / FLOAT_FACTOR_10) < 14
    unfold castToUint8 FLOAT_FACTOR_10
    omega
  have hb2 : (charIndexes s.nextAngle).getD 2 0 < 14 := by
    show castToUint8 (normAngle s.nextAngle) % INT_FACTOR_10 < 14
    unfold castToUint8 INT_FACTOR_10
    omega
  have hb3 : (charIndexes s.nextAngle).getD 3 0 < 14 := by
    show INDEX_DOT < 14
    unfold INDEX_DOT
    omega
  have hb4 : (charIndexes s.nextAngle).getD 4 0 < 14 := by
    show castToUint16 (normAngle s.nextAngle * FLOAT_FACTOR_10) % INT_FACTOR_10 % 256 < 14
    unfold castToUint16 FLOAT_FACTOR_10 INT_FACTOR_10
    omega
  have hb5 : (charIndexes s.nextAngle).getD 5 0 < 14 := by
    show INDEX_DEG < 14
    unfold INDEX_DEG
    omega
  have hre := rasterize_eq_payloadOfSlots (charIndexes s.nextAngle) hb0 hb1 hb2 hb3 hb4 hb5
  have hlit : [(charIndexes s.nextAngle).getD 0 0, (charIndexes s.nextAngle).getD 1 0,
      (charIndexes s.nextAngle).getD 2 0, (charIndexes s.nextAngle).getD 3 0,
      (charIndexes s.nextAngle).getD 4 0, (charIndexes s.nextAngle).getD 5 0] =
      charIndexes s.nextAngle := rfl
  rw [hlit] at hre
  refine ⟨rasterize_length _, hslots, by rw [← hslots]; exact hre, ?_, ?_⟩ <;>
    obtain ⟨cr, cp, pr, pp, dl, sp⟩ := i <;>
    simp only at hcr hcp hpr hpp hdl <;>
    subst hcr hcp hpr hpp hdl <;>
    obtain ⟨st, buf, ang, pg, col, tmr, cs, dc⟩ := s <;>
    simp only at hst <;>
    subst hst <;>
    simp [SSD1306update, stPrintingAngleTick, SSD1306sendCommand, applyRaster,
      IS_ERROR, ERR_SUCCESS, createErrorCode, createErrorCodeLayer1, pushErrorCode,
      SSD1306_ENABLE_SPI, SSD1306_DISABLE_SPI, SSD1306_SET_COMMAND, SSD1306_SET_DATA,
      MAX_PARAMETERS, ANGLE_NB_CHARS, VERDANA_NB_BYTES_CHAR,
      List.take_left' (rasterize_length _)]

/-- Witness for the amended C3: the concrete request of 12.3 degrees at
page 2, column 10 (scenario 1 of the spec). -/
theorem C3_payload_roundtrip_witness :
    (rasterize (charIndexes
      (Screen.mk ScreenState.stPrintingAngle (List.replicate 1024 0)
        (123/10) 2 10 0 false false).nextAngle)).length = 132 ∧
    charIndexes (Screen.mk ScreenState.stPrintingAngle (List.replicate 1024 0)
        (123/10) 2 10 0 false false).nextAngle =
      slotsTrunc (Screen.mk ScreenState.stPrintingAngle (List.replicate 1024 0)
        (123/10) 2 10 0 false false).nextAngle ∧
    rasterize (charIndexes (Screen.mk ScreenState.stPrintingAngle (List.replicate 1024 0)
        (123/10) 2 10 0 false false).nextAngle) =
      payloadOfSlots (slotsTrunc (Screen.mk ScreenState.stPrintingAngle
        (List.replicate 1024 0) (123/10) 2 10 0 false false).nextAngle) ∧
    (SSD1306update allOkBusy (Screen.mk ScreenState.stPrintingAngle
        (List.replicate 1024 0) (123/10) 2 10 0 false false)).tr.getLast? =
      some (BusEvent.dmaLaunch (rasterize (charIndexes
        (Screen.mk ScreenState.stPrintingAngle (List.replicate 1024 0)
          (123/10) 2 10 0 false false).nextAngle)) 132) ∧
    (SSD1306update allOkBusy (Screen.mk ScreenState.stPrintingAngle
        (List.replicate 1024 0) (123/10) 2 10 0 false false)).scr.screenBuffer.take 132 =
      rasterize (charIndexes (Screen.mk ScreenState.stPrintingAngle
        (List.replicate 1024 0) (123/10) 2 10 0 false false).nextAngle) :=
  C3_payload_roundtrip allOkBusy
    (Screen.mk ScreenState.stPrintingAngle (List.replicate 1024 0) (123/10) 2 10 0 false false)
    rfl (by norm_num [MIN_ANGLE_DEG]) (by norm_num [MAX_ANGLE_DEG]) rfl rfl rfl rfl rfl

end SSD1306
